import Mathlib

/-!
A shallow embedding of the multi-tenant chat-relay gateway
(NeoHosseinism/Arash-Bot): session store, sliding-window rate limiter,
credential validation, and the per-request orchestrator
process_message_simple, together with theorems settling the frozen claims
about session isolation, access control, quota, rate limiting, and
backend-failure handling.

Python dictionaries are modelled as insertion-ordered association lists,
in-place mutation as explicit state passing, wall-clock time as an integer
parameter, and the hash functions and external collaborators (generation
backend, command handler) as parameters of an environment record.
-/

namespace ArashBot

/-! ## Association-list dictionaries (Python dict semantics) -/

/-- Lookup in an insertion-ordered association list (Python dict read). -/
def lookup? {α : Type} (m : List (String × α)) (k : String) : Option α :=
  (m.find? (fun p => p.1 = k)).map Prod.snd

/-- Lookup with default (Python dict.get / defaultdict read). -/
def lookupD {α : Type} (m : List (String × α)) (k : String) (d : α) : α :=
  (lookup? m k).getD d

/-- Assignment in an insertion-ordered association list (Python dict write):
replaces the value in place when the key exists, appends otherwise. -/
def setEntry {α : Type} (m : List (String × α)) (k : String) (v : α) : List (String × α) :=
  if (m.find? (fun p => p.1 = k)).isSome then
    m.map (fun p => if p.1 = k then (k, v) else p)
  else
    m ++ [(k, v)]

/-- Python str.lower, as a character-wise map over the string's data
(String.toLower computes the same string). -/
def pyLower (s : String) : String :=
  String.mk (s.data.map Char.toLower)

/-- Python str.startswith, as a prefix test on the strings' data
(String.startsWith computes the same Bool). -/
def pyStartsWith (s p : String) : Bool :=
  p.data.isPrefixOf s.data

/-- Python negative-slice tail, lst[-n:]: the last n elements, except that
n = 0 yields the whole list (lst[-0:] is lst[0:]). -/
def pyTakeLast {α : Type} (l : List α) (n : Nat) : List α :=
  if n = 0 then l else l.drop (l.length - n)

/-! ## Platform configuration (app/services/platform_manager.py) -/

/-- PlatformConfig from app/services/platform_manager.py (the fields of
its dict() serialization plus the api_key used by validate_auth). -/
structure PlatformConfig where
  ptype : String
  model : String
  available_models : List String
  rate_limit : Nat
  commands : List String
  allow_model_switch : Bool
  requires_auth : Bool
  max_history : Nat
deriving Repr, DecidableEq

/-- PlatformManager from app/services/platform_manager.py: its configs
dict always holds exactly the two entries loaded in _load_configurations.
The platform name constants come from app.core.constants, absent from
src; modelled from the spec as the closed set of a telegram (public) and
an internal (private) platform, matching the string literals used across
dependencies.py and platform_manager.is_admin. -/
structure PlatformManager where
  telegram_config : PlatformConfig
  internal_config : PlatformConfig

/-- PlatformManager.get_config: lowercases the platform name and falls
back to the telegram (public) configuration for unknown platforms. -/
def PlatformManager.get_config (pm : PlatformManager) (platform : String) : PlatformConfig :=
  let p := pyLower platform
  if p = "telegram" then pm.telegram_config
  else if p = "internal" then pm.internal_config
  else pm.telegram_config

/-- PlatformManager.get_rate_limit. -/
def PlatformManager.get_rate_limit (pm : PlatformManager) (platform : String) : Nat :=
  (pm.get_config platform).rate_limit

/-- PlatformManager.get_max_history. -/
def PlatformManager.get_max_history (pm : PlatformManager) (platform : String) : Nat :=
  (pm.get_config platform).max_history

/-! ## Chat sessions (app/models/session.py) -/

/-- One history entry, a dict with role and content keys. -/
structure Message where
  role : String
  content : String
deriving Repr, DecidableEq

/-- ChatSession from app/models/session.py. Timestamps are integer
seconds; the source also carries a context dict and a conversation_id
field unused by every code path the claims touch. The chat_id field is
the identifier get_or_create_session passes when building the session. -/
structure ChatSession where
  session_id : String
  platform : String
  platform_config : PlatformConfig
  user_id : String
  chat_id : String
  current_model : String
  history : List Message := []
  created_at : Int
  last_activity : Int
  message_count : Nat := 0
  is_admin : Bool := false
  team_id : Option Int := none
  api_key_id : Option Int := none
  api_key_pfx : Option String := none
deriving Repr, DecidableEq

/-- ChatSession.add_message: appends to history, increments
message_count, refreshes last_activity. -/
def ChatSession.add_message (s : ChatSession) (now : Int) (role content : String) : ChatSession :=
  { s with
    history := s.history ++ [⟨role, content⟩]
    message_count := s.message_count + 1
    last_activity := now }

/-- ChatSession.get_recent_history: history[-max_messages:] when history
is nonempty, [] otherwise. -/
def ChatSession.get_recent_history (s : ChatSession) (max_messages : Nat) : List Message :=
  if s.history = [] then [] else pyTakeLast s.history max_messages

/-- ChatSession.update_activity. -/
def ChatSession.update_activity (s : ChatSession) (now : Int) : ChatSession :=
  { s with last_activity := now }

/-! ## Environment: configuration and external collaborators -/

/-- Process-wide configuration and the external collaborators consumed by
the core: the platform configurations, admin-user sets from settings, the
hash functions (md5 hex digest for session ids, sha256 hex digest for
credential hashes), the downstream generation backend (none = the HTTP
call raised), the command processor, and the statically configured
secrets.  TELEGRAM_SERVICE_KEY and the super-admin key set are read from
settings in app/api/dependencies.py; their declarations are absent from
src/app/core/config.py and are modelled from the spec: a static,
out-of-band administrative secret list supplied at process start. -/
structure Env where
  pm : PlatformManager
  telegram_admin_users : List String
  internal_admin_users : List String
  md5hex : String → String
  sha256hex : String → String
  backend : String → String → List Message → String → Option String
  process_command : ChatSession → String → String × ChatSession
  telegram_service_key : String
  super_admin_keys : List String

/-- PlatformManager.is_admin: membership in the per-platform admin-user
sets from settings (no lowercasing here, matching the source). -/
def Env.is_admin (env : Env) (platform user_id : String) : Bool :=
  if platform = "telegram" then env.telegram_admin_users.contains user_id
  else if platform = "internal" then env.internal_admin_users.contains user_id
  else false

/-! ## SessionManager (app/services/session_manager.py) -/

/-- SessionManager state: the sessions dict and the rate_limits
defaultdict of timestamp lists. -/
structure SessionManager where
  sessions : List (String × ChatSession) := []
  rate_limits : List (String × List Int) := []
deriving Repr, DecidableEq

/-- SessionManager.get_session_key: platform and chat id joined by a
colon.  It takes no tenant argument and embeds no tenant segment. -/
def get_session_key (platform chat_id : String) : String :=
  platform ++ ":" ++ chat_id

/-- SessionManager.get_or_create_session: returns the stored session for
the key (after update_activity) when present; otherwise builds a fresh
session from the platform configuration — session id the md5 hex digest
of the key, empty history, message count zero, the supplied team and
credential fields — and stores it.  It performs no ownership check and
never fails. -/
def SessionManager.get_or_create_session (env : Env) (sm : SessionManager) (now : Int)
    (platform user_id chat_id : String)
    (team_id api_key_id : Option Int) (api_key_pfx : Option String) :
    ChatSession × SessionManager :=
  let key := get_session_key platform chat_id
  match lookup? sm.sessions key with
  | none =>
    let config := env.pm.get_config platform
    let s : ChatSession := {
      session_id := env.md5hex key
      platform := platform
      platform_config := config
      user_id := user_id
      chat_id := chat_id
      current_model := config.model
      history := []
      created_at := now
      last_activity := now
      message_count := 0
      is_admin := env.is_admin platform user_id
      team_id := team_id
      api_key_id := api_key_id
      api_key_pfx := api_key_pfx }
    (s, { sm with sessions := setEntry sm.sessions key s })
  | some s =>
    let s2 := s.update_activity now
    (s2, { sm with sessions := setEntry sm.sessions key s2 })

/-- SessionManager.check_rate_limit: prunes the key's recorded
timestamps to those strictly newer than now - 60, denies when the pruned
count has reached the platform's limit (storing the pruned list), and
otherwise admits, appending the current timestamp. -/
def SessionManager.check_rate_limit (env : Env) (sm : SessionManager) (now : Int)
    (platform user_id : String) : Bool × SessionManager :=
  let minute_ago := now - 60
  let rate_limit := env.pm.get_rate_limit platform
  let key := platform ++ ":" ++ user_id
  let cleaned := (lookupD sm.rate_limits key []).filter (fun t => decide (minute_ago < t))
  if rate_limit ≤ cleaned.length then
    (false, { sm with rate_limits := setEntry sm.rate_limits key cleaned })
  else
    (true, { sm with rate_limits := setEntry sm.rate_limits key (cleaned ++ [now]) })

/-! ## Credential store (app/models/database.py, app/services/api_key_manager.py) -/

/-- Team row from app/models/database.py (quota policy and active flag;
webhook and descriptive columns the claims never touch are omitted). -/
structure Team where
  id : Int
  name : String
  monthly_quota : Option Int := none
  daily_quota : Option Int := none
  is_active : Bool := true
deriving Repr, DecidableEq

/-- APIKey row from app/models/database.py. -/
structure APIKey where
  id : Int
  key_hash : String
  key_pfx : String
  name : String
  team_id : Int
  monthly_quota : Option Int := none
  daily_quota : Option Int := none
  is_active : Bool := true
  last_used_at : Option Int := none
  expires_at : Option Int := none
deriving Repr, DecidableEq

/-- APIKey.is_expired: never expires when expires_at is null, otherwise
expired once the current time is strictly past it. -/
def APIKey.is_expired (k : APIKey) (now : Int) : Bool :=
  match k.expires_at with
  | none => false
  | some e => decide (e < now)

/-- The durable store: the teams and api_keys record sets. -/
structure DB where
  teams : List Team := []
  api_keys : List APIKey := []
deriving Repr, DecidableEq

/-- The query db.query(APIKey).filter(APIKey.key_hash == h).first();
key_hash carries a unique constraint. -/
def DB.find_key_by_hash (db : DB) (h : String) : Option APIKey :=
  db.api_keys.find? (fun k => k.key_hash = h)

/-- The db_key.team relationship (team_id is a non-nullable foreign key,
so for well-formed stores the lookup succeeds). -/
def DB.find_team (db : DB) (tid : Int) : Option Team :=
  db.teams.find? (fun t => t.id = tid)

/-- APIKeyManager.validate_api_key: hashes the presented secret, looks
the hash up, and checks in order: credential present, credential active,
credential unexpired, owning team active.  On success it updates
last_used_at and returns the credential; on every failure it returns
none — the four categories are distinguished only in log lines, not in
the returned value. -/
def validate_api_key (env : Env) (db : DB) (now : Int) (api_key : String) :
    Option APIKey × DB :=
  let key_hash := env.sha256hex api_key
  match db.find_key_by_hash key_hash with
  | none => (none, db)
  | some db_key =>
    if db_key.is_active = false then (none, db)
    else if db_key.is_expired now then (none, db)
    else
      match db.find_team db_key.team_id with
      | none => (none, db)
      | some team =>
        if team.is_active = false then (none, db)
        else
          let k2 := { db_key with last_used_at := some now }
          (some k2, { db with api_keys := db.api_keys.map (fun j => if j.id = db_key.id then k2 else j) })

/-- An authentication failure surfaced over HTTP: status code and detail
(fastapi.HTTPException). -/
structure HTTPError where
  status_code : Nat
  detail : String
deriving Repr, DecidableEq

/-- require_admin_access from app/api/dependencies.py: no header is 401;
an unconfigured super-admin set is 401; a key outside the statically
configured set is 403; membership grants access.  It never consults the
credential table. -/
def require_admin_access (env : Env) (authorization : Option String) :
    Except HTTPError String :=
  match authorization with
  | none => .error ⟨401, "Authentication required"⟩
  | some provided_key =>
    if env.super_admin_keys = [] then
      .error ⟨401, "Super admin authentication not configured"⟩
    else if env.super_admin_keys.contains provided_key then
      .ok provided_key
    else
      .error ⟨403, "Invalid super admin API key"⟩

/-- The resolution require_chat_access returns: the telegram service
marker or a validated team credential. -/
inductive ChatAuth where
  | telegram
  | team (k : APIKey)
deriving Repr, DecidableEq

/-- require_chat_access from app/api/dependencies.py: the telegram
service key short-circuits; otherwise the database-backed validation
runs and a generic 403 is raised when it returns nothing. -/
def require_chat_access (env : Env) (db : DB) (now : Int)
    (authorization : Option String) : Except HTTPError ChatAuth × DB :=
  match authorization with
  | none =>
    (.error ⟨401, "Authentication required. Please provide an API key in the Authorization header."⟩, db)
  | some provided_key =>
    if provided_key = env.telegram_service_key then (.ok .telegram, db)
    else
      let r := validate_api_key env db now provided_key
      match r.1 with
      | none => (.error ⟨403, "Invalid API key. Please check your credentials."⟩, r.2)
      | some k => (.ok (.team k), r.2)

/-! ## Usage ledger and quota arithmetic -/

/-- UsageLog row from app/models/database.py (request_count, token,
cost and latency columns the claims never touch are omitted). -/
structure UsageLog where
  api_key_id : Int
  team_id : Int
  session_id : String
  platform : String
  model_used : String
  success : Bool
  error_message : Option String := none
deriving Repr, DecidableEq

/-- Modelled from the spec: UsageTracker.log_usage (the module
app/services/usage_tracker.py is imported by message_processor.py but
absent from src).  Per spec section 4.4 logUsage always appends the
record, success or failure, and never raises. -/
def log_usage (ledger : List UsageLog) (rec : UsageLog) : List UsageLog :=
  ledger ++ [rec]

/-- Modelled from the spec: the count of successful usage records
charged to a credential, the used figure of checkQuota. -/
def usedCount (ledger : List UsageLog) (credential_id : Int) : Nat :=
  (ledger.filter (fun u => u.api_key_id = credential_id && u.success)).length

/-- Modelled from the spec: the effective limit for a period — a
non-null credential-level override beats the team policy, null at both
levels means unlimited. -/
def effectiveLimit (credential_quota team_quota : Option Int) : Option Int :=
  match credential_quota with
  | some q => some q
  | none => team_quota

/-! ## Gateway orchestrator (app/services/message_processor.py) -/

/-- BotResponse from app/models/schemas.py. -/
structure BotResponse where
  success : Bool
  response : Option String := none
  chat_id : Option String := none
  model : Option String := none
  message_count : Option Nat := none
  error : Option String := none
deriving Repr, DecidableEq

/-- The mutable state process_message_simple touches: the in-process
session manager and the persistent usage ledger. -/
structure GatewayState where
  sm : SessionManager := {}
  ledger : List UsageLog := []
deriving Repr, DecidableEq

/-- Python truthiness of an optional integer (if team_id and api_key_id:
None and 0 are falsy). -/
def truthy (o : Option Int) : Bool :=
  match o with
  | none => false
  | some v => decide (v ≠ 0)

/-- CommandProcessor.is_command: nonempty text starting with a slash or
an exclamation mark. -/
def is_command (text : String) : Bool :=
  if text = "" then false else pyStartsWith text "/" || pyStartsWith text "!"

/-- The static degraded response _handle_chat_simple returns when the
generation backend raises. -/
def ai_unavailable_text : String :=
  "متأسفم، سرویس هوش مصنوعی در حال حاضر در دسترس نیست. لطفاً چند لحظه دیگر دوباره تلاش کنید یا با پشتیبانی تماس بگیرید."

/-- MessageProcessor._handle_chat_simple: sends the query, the session's
recent history and current model to the backend; on success appends the
user and assistant messages and trims history to twice the platform's
max-history; on backend failure returns the static apology and leaves
the session untouched. -/
def handle_chat_simple (env : Env) (now : Int) (session : ChatSession) (text : String) :
    String × ChatSession :=
  let max_history := env.pm.get_max_history session.platform
  match env.backend session.session_id text (session.get_recent_history max_history) session.current_model with
  | none => (ai_unavailable_text, session)
  | some resp =>
    let s1 := (session.add_message now "user" text).add_message now "assistant" resp
    let s2 :=
      if max_history * 2 < s1.history.length then
        { s1 with history := pyTakeLast s1.history (max_history * 2) }
      else s1
    (resp, s2)

/-- The rate-limit denial text, carrying the limiting value from the
session's stored platform configuration. -/
def rate_limit_text (rate_limit : Nat) : String :=
  "⚠️ محدودیت سرعت. لطفاً قبل از ارسال پیام بعدی کمی صبر کنید.\n\nمحدودیت: " ++ toString rate_limit ++ " پیام در دقیقه"

/-- MessageProcessor.process_message_simple: get-or-create the session
(the except PermissionError arm in the source is dead code — the callee
never raises it), then the rate check; a denial logs a failed usage
record when a truthy team and credential id are known and returns the
soft rate-limited response; otherwise the text is dispatched to the
command processor or the chat handler, the session counter and activity
are updated and the session stored back, a successful usage record is
logged for a known credential, and a success response carrying chat_id,
model and message count is returned. -/
def process_message_simple (env : Env) (st : GatewayState) (now : Int)
    (platform_name : String) (team_id api_key_id : Option Int)
    (api_key_pfx : Option String) (user_id chat_id message_id text : String) :
    BotResponse × GatewayState :=
  let r1 := SessionManager.get_or_create_session env st.sm now platform_name user_id chat_id team_id api_key_id api_key_pfx
  let session := r1.1
  let r2 := SessionManager.check_rate_limit env r1.2 now platform_name user_id
  if r2.1 = false then
    let ledger2 :=
      if truthy team_id && truthy api_key_id then
        log_usage st.ledger
          { api_key_id := api_key_id.getD 0
            team_id := team_id.getD 0
            session_id := chat_id
            platform := platform_name
            model_used := session.current_model
            success := false
            error_message := some "rate_limit_exceeded" }
      else st.ledger
    ({ success := false
       error := some "rate_limit_exceeded"
       response := some (rate_limit_text session.platform_config.rate_limit)
       chat_id := some chat_id },
     { sm := r2.2, ledger := ledger2 })
  else
    let hc :=
      if is_command text then env.process_command session text
      else handle_chat_simple env now session text
    let session2 := { hc.2 with message_count := hc.2.message_count + 1, last_activity := now }
    let key := get_session_key platform_name chat_id
    let sm3 := { r2.2 with sessions := setEntry r2.2.sessions key session2 }
    let ledger3 :=
      if truthy team_id && truthy api_key_id then
        log_usage st.ledger
          { api_key_id := api_key_id.getD 0
            team_id := team_id.getD 0
            session_id := chat_id
            platform := platform_name
            model_used := session2.current_model
            success := true
            error_message := none }
      else st.ledger
    ({ success := true
       response := some hc.1
       chat_id := some chat_id
       model := some session2.current_model
       message_count := some session2.message_count },
     { sm := sm3, ledger := ledger3 })

/-! ## Dictionary lemmas -/

theorem lookup?_map_replace {α : Type} (m : List (String × α)) (k : String) (v : α)
    (h : (m.find? (fun p => p.1 = k)).isSome) :
    lookup? (m.map (fun p => if p.1 = k then (k, v) else p)) k = some v := by
  induction m with
  | nil => simp [List.find?] at h
  | cons a t ih =>
    by_cases ha : a.1 = k
    · simp [lookup?, List.find?, ha]
    · have h' : (t.find? (fun p => p.1 = k)).isSome := by
        simpa [List.find?, ha] using h
      simpa [lookup?, List.find?, ha] using ih h'

theorem lookup?_append_of_none {α : Type} (m : List (String × α)) (k : String) (v : α)
    (h : m.find? (fun p => p.1 = k) = none) :
    lookup? (m ++ [(k, v)]) k = some v := by
  induction m with
  | nil => simp [lookup?, List.find?]
  | cons a t ih =>
    by_cases ha : a.1 = k
    · simp [List.find?, ha] at h
    · have h' : t.find? (fun p => p.1 = k) = none := by
        simpa [List.find?, ha] using h
      simpa [lookup?, List.find?, ha] using ih h'

/-- Writing a key then reading it back yields the written value. -/
theorem lookup?_setEntry_self {α : Type} (m : List (String × α)) (k : String) (v : α) :
    lookup? (setEntry m k v) k = some v := by
  unfold setEntry
  by_cases h : (m.find? (fun p => p.1 = k)).isSome
  · simpa [h] using lookup?_map_replace m k v h
  · have h0 : m.find? (fun p => p.1 = k) = none := by
      cases hf : m.find? (fun p => p.1 = k) with
      | none => rfl
      | some a => rw [hf] at h; simp at h
    simpa [h0] using lookup?_append_of_none m k v h0

theorem lookup?_nil {α : Type} (k : String) : lookup? ([] : List (String × α)) k = none := rfl

theorem lookup?_cons {α : Type} (a : String × α) (t : List (String × α)) (k2 : String) :
    lookup? (a :: t) k2 = if a.1 = k2 then some a.2 else lookup? t k2 := by
  by_cases h : a.1 = k2 <;> simp [lookup?, List.find?, h]

theorem lookup?_map_replace_ne {α : Type} (m : List (String × α)) (k k2 : String) (v : α)
    (h : k2 ≠ k) :
    lookup? (m.map (fun p => if p.1 = k then (k, v) else p)) k2 = lookup? m k2 := by
  have hk2 : ¬ (k = k2) := fun hh => h hh.symm
  induction m with
  | nil => rfl
  | cons a t ih =>
    simp only [List.map_cons]
    by_cases ha : a.1 = k
    · have ha2 : ¬ (a.1 = k2) := by rw [ha]; exact hk2
      rw [if_pos ha, lookup?_cons, lookup?_cons, if_neg hk2, if_neg ha2, ih]
    · rw [if_neg ha, lookup?_cons, lookup?_cons]
      by_cases ha2 : a.1 = k2
      · rw [if_pos ha2, if_pos ha2]
      · rw [if_neg ha2, if_neg ha2, ih]

theorem lookup?_append_single_ne {α : Type} (m : List (String × α)) (k k2 : String) (v : α)
    (h : k2 ≠ k) :
    lookup? (m ++ [(k, v)]) k2 = lookup? m k2 := by
  have hk2 : ¬ (k = k2) := fun hh => h hh.symm
  induction m with
  | nil => rw [List.nil_append, lookup?_cons, if_neg hk2]
  | cons a t ih =>
    rw [List.cons_append, lookup?_cons, lookup?_cons]
    by_cases ha2 : a.1 = k2
    · rw [if_pos ha2, if_pos ha2]
    · rw [if_neg ha2, if_neg ha2, ih]

/-- Writing one key leaves every other key unchanged. -/
theorem lookup?_setEntry_ne {α : Type} (m : List (String × α)) (k k2 : String) (v : α)
    (h : k2 ≠ k) : lookup? (setEntry m k v) k2 = lookup? m k2 := by
  unfold setEntry
  by_cases hf : (m.find? (fun p => p.1 = k)).isSome
  · simpa [hf] using lookup?_map_replace_ne m k k2 v h
  · simpa [hf] using lookup?_append_single_ne m k k2 v h

/-! ## SessionManager lemmas -/

/-- check_rate_limit never touches the sessions table. -/
theorem check_rate_limit_sessions (env : Env) (sm : SessionManager) (now : Int)
    (platform user_id : String) :
    (SessionManager.check_rate_limit env sm now platform user_id).2.sessions = sm.sessions := by
  unfold SessionManager.check_rate_limit
  dsimp only
  split <;> rfl

/-- get_or_create_session never touches the rate-limit table. -/
theorem get_or_create_rate_limits (env : Env) (sm : SessionManager) (now : Int)
    (platform user_id chat_id : String) (team_id api_key_id : Option Int)
    (api_key_pfx : Option String) :
    (SessionManager.get_or_create_session env sm now platform user_id chat_id team_id api_key_id api_key_pfx).2.rate_limits
      = sm.rate_limits := by
  unfold SessionManager.get_or_create_session
  dsimp only
  cases lookup? sm.sessions (get_session_key platform chat_id) <;> rfl

/-- After get_or_create_session, the key maps to the returned session. -/
theorem get_or_create_lookup_self (env : Env) (sm : SessionManager) (now : Int)
    (platform user_id chat_id : String) (team_id api_key_id : Option Int)
    (api_key_pfx : Option String) :
    lookup? (SessionManager.get_or_create_session env sm now platform user_id chat_id team_id api_key_id api_key_pfx).2.sessions
        (get_session_key platform chat_id)
      = some (SessionManager.get_or_create_session env sm now platform user_id chat_id team_id api_key_id api_key_pfx).1 := by
  unfold SessionManager.get_or_create_session
  dsimp only
  cases hl : lookup? sm.sessions (get_session_key platform chat_id) with
  | none => simpa using lookup?_setEntry_self _ _ _
  | some s => simpa using lookup?_setEntry_self _ _ _

/-- When the key is already present, get_or_create_session returns the
stored session with only last_activity refreshed, and replaces the entry
with that refreshed session. -/
theorem get_or_create_of_present (env : Env) (sm : SessionManager) (now : Int)
    (platform user_id chat_id : String) (team_id api_key_id : Option Int)
    (api_key_pfx : Option String) (s : ChatSession)
    (h : lookup? sm.sessions (get_session_key platform chat_id) = some s) :
    SessionManager.get_or_create_session env sm now platform user_id chat_id team_id api_key_id api_key_pfx
      = (s.update_activity now,
         { sm with sessions := setEntry sm.sessions (get_session_key platform chat_id) (s.update_activity now) }) := by
  unfold SessionManager.get_or_create_session
  dsimp only
  rw [h]

/-- When the key is absent, get_or_create_session builds a fresh session
with empty history and zero message count. -/
theorem get_or_create_of_absent (env : Env) (sm : SessionManager) (now : Int)
    (platform user_id chat_id : String) (team_id api_key_id : Option Int)
    (api_key_pfx : Option String)
    (h : lookup? sm.sessions (get_session_key platform chat_id) = none) :
    (SessionManager.get_or_create_session env sm now platform user_id chat_id team_id api_key_id api_key_pfx).1.history = []
    ∧ (SessionManager.get_or_create_session env sm now platform user_id chat_id team_id api_key_id api_key_pfx).1.message_count = 0 := by
  unfold SessionManager.get_or_create_session
  dsimp only
  rw [h]
  exact ⟨rfl, rfl⟩

/-! ## Further orchestrator lemmas -/

/-- The sessions table after get_or_create_session is always the input
table with the key written to the returned session (a replacement when
it existed, an append when it did not). -/
theorem get_or_create_sessions_eq (env : Env) (sm : SessionManager) (now : Int)
    (platform user_id chat_id : String) (team_id api_key_id : Option Int)
    (api_key_pfx : Option String) :
    (SessionManager.get_or_create_session env sm now platform user_id chat_id team_id api_key_id api_key_pfx).2.sessions
      = setEntry sm.sessions (get_session_key platform chat_id)
          (SessionManager.get_or_create_session env sm now platform user_id chat_id team_id api_key_id api_key_pfx).1 := by
  unfold SessionManager.get_or_create_session
  dsimp only
  cases lookup? sm.sessions (get_session_key platform chat_id) <;> rfl

/-! ## Concrete fixtures -/

/-- The public platform configuration of _load_configurations, at the
default settings (TELEGRAM_RATE_LIMIT 20, TELEGRAM_MAX_HISTORY 10). -/
def telegram_config0 : PlatformConfig :=
  { ptype := "public"
    model := "google-gemini"
    available_models := ["google-gemini"]
    rate_limit := 20
    commands := ["start", "help", "status", "clear", "model", "models"]
    allow_model_switch := false
    requires_auth := false
    max_history := 10 }

/-- The private platform configuration of _load_configurations, at the
default settings (INTERNAL_RATE_LIMIT 60, INTERNAL_MAX_HISTORY 30). -/
def internal_config0 : PlatformConfig :=
  { ptype := "private"
    model := "gpt-chat"
    available_models := ["gpt-chat", "deepseek"]
    rate_limit := 60
    commands := ["start", "help", "status", "clear", "model", "models", "settings", "summarize", "translate"]
    allow_model_switch := true
    requires_auth := true
    max_history := 30 }

/-- A concrete environment: default platform configurations, injective
stand-ins for the hex digests, a live backend, and one configured
administrative secret. -/
def env0 : Env :=
  { pm := { telegram_config := telegram_config0, internal_config := internal_config0 }
    telegram_admin_users := []
    internal_admin_users := []
    md5hex := fun k => "md5-" ++ k
    sha256hex := fun s => "sha-" ++ s
    backend := fun _ _ _ _ => some "backend-reply"
    process_command := fun s _ => ("command-reply", s)
    telegram_service_key := "tsk-secret"
    super_admin_keys := ["admin-secret"] }

/-- env0 with the generation backend raising on every call. -/
def env_backend_down : Env :=
  { env0 with backend := fun _ _ _ _ => none }

/-- env0 with the internal platform limited to one request per minute. -/
def env_rl1 : Env :=
  { env0 with pm := { telegram_config := telegram_config0,
                      internal_config := { internal_config0 with rate_limit := 1 } } }

/-- A concrete active team. -/
def team1 : Team := { id := 1, name := "TeamOne" }

/-- A concrete credential of team1 with a credential-level monthly
override of one request. -/
def cred10 : APIKey :=
  { id := 10, key_hash := "sha-secret10", key_pfx := "ak_p10", name := "k10",
    team_id := 1, monthly_quota := some 1 }

/-! ## C1 -/

/-- C1: the claim says the session-store key carries a tenant segment
whenever a tenant id is present, so two distinct tenants sharing an
end-user id reach distinct keys and sessions.  The code computes the key
from platform and chat id alone: both tenants map to the key
internal:alice, the second call returns the first tenant's session
(same session id, team_id still 1), and only one session exists. -/
theorem C1_distinct_tenants_collide :
    get_session_key "internal" "alice" = "internal:alice"
    ∧ (let r1 := SessionManager.get_or_create_session env0 {} 0 "internal" "alice" "alice" (some 1) (some 10) (some "ak_p10")
       let r2 := SessionManager.get_or_create_session env0 r1.2 5 "internal" "alice" "alice" (some 2) (some 20) (some "ak_p20")
       r2.1.session_id = r1.1.session_id
       ∧ r2.1.team_id = some 1
       ∧ r2.2.sessions.length = 1) := by
  decide

/-! ## C3 -/

/-- The ledger already carrying one successful request of cred10. -/
def ledgerC3 : List UsageLog :=
  [{ api_key_id := 10, team_id := 1, session_id := "alice", platform := "internal",
     model_used := "gpt-chat", success := true }]

/-- C3 counterexample: cred10 has effective monthly limit 1 and one
successful usage record already charged, yet the next message for it is
not rejected with a quota outcome: the request succeeds, the backend's
reply surfaces (so a backend request was made), and a second record is
appended. -/
theorem C3_counterexample :
    effectiveLimit cred10.monthly_quota team1.monthly_quota = some 1
    ∧ usedCount ledgerC3 cred10.id = 1
    ∧ (let r := process_message_simple env0 { sm := {}, ledger := ledgerC3 } 0 "internal"
         (some 1) (some 10) (some "ak_p10") "alice" "alice" "m1" "hello"
       r.1.success = true ∧ r.1.error = none ∧ r.1.response = some "backend-reply"
       ∧ r.2.ledger.length = 2) := by
  decide

/-! ## C4 -/

/-- A store with no credential at all (NotFound case). -/
def dbC4_not_found : DB := { teams := [team1], api_keys := [] }

/-- A disabled credential matching the hash of secret11 (Inactive case). -/
def cred11_inactive : APIKey :=
  { id := 11, key_hash := "sha-secret11", key_pfx := "ak_p11", name := "k11",
    team_id := 1, is_active := false }

/-- A store holding only the disabled credential. -/
def dbC4_inactive : DB := { teams := [team1], api_keys := [cred11_inactive] }

/-- C4 counterexample: the claim says every failure is a specific,
distinguishable category, never a single generic failure.  The code
returns none for every failure: a secret with no hash match and a secret
matching a disabled credential produce the identical result. -/
theorem C4_counterexample :
    (validate_api_key env0 dbC4_not_found 0 "secret11").1 = none
    ∧ (validate_api_key env0 dbC4_inactive 0 "secret11").1 = none
    ∧ (validate_api_key env0 dbC4_not_found 0 "secret11").1
        = (validate_api_key env0 dbC4_inactive 0 "secret11").1 := by
  decide

/-! ## C5 -/

/-- env0 reconfigured so the administrative secret set holds a secret
whose hash is also a stored credential hash. -/
def envC5 : Env := { env0 with super_admin_keys := ["shared-secret"] }

/-- An active credential whose stored hash equals the hash of the
configured administrative secret. -/
def credC5 : APIKey :=
  { id := 12, key_hash := "sha-shared-secret", key_pfx := "ak_p12", name := "k12",
    team_id := 1 }

/-- A store holding that credential. -/
def dbC5 : DB := { teams := [team1], api_keys := [credC5] }

/-- C5 counterexample: nothing in the code keeps the administrative
secret set and the credential table disjoint — in a state where a
credential row stores the hash of a configured administrative secret,
the same secret is accepted by both require_admin_access and
validate_api_key. -/
theorem C5_counterexample :
    (require_admin_access envC5 (some "shared-secret")).toOption = some "shared-secret"
    ∧ (validate_api_key envC5 dbC5 0 "shared-secret").1.isSome = true := by
  decide

/-! ## C6 -/

/-- C6 counterexample: an authenticated request denied by the rate
limiter (limit one per minute, one in-window timestamp recorded) does
append a failed usage record to the ledger, refuting the claim that a
denial mutates no state outside the rate limiter. -/
theorem C6_counterexample :
    (let st : GatewayState :=
       { sm := { sessions := [], rate_limits := [("internal:alice", [100])] }, ledger := [] }
     let r := process_message_simple env_rl1 st 110 "internal" (some 1) (some 10) (some "ak_p10")
       "alice" "alice" "m1" "hello"
     r.1.success = false ∧ r.1.error = some "rate_limit_exceeded"
     ∧ r.2.ledger.length = 1
     ∧ r.2.ledger.map (fun u => u.success) = [false]
     ∧ r.2.ledger.map (fun u => u.error_message) = [some "rate_limit_exceeded"]) := by
  decide

/-! ## C2 -/

/-- The gateway state after tenant 1 created the session at
internal:alice. -/
def stC2 : GatewayState :=
  { sm := (SessionManager.get_or_create_session env0 {} 0 "internal" "alice" "alice"
            (some 1) (some 10) (some "ak_p10")).2
    ledger := [] }

/-- C2: the claim says a request whose resolved tenant differs from the
session owner fails with an access-denied outcome and leaves the session
unchanged.  The code performs no ownership check (the PermissionError
arm in process_message_simple is dead code): tenant 2's request against
tenant 1's session succeeds, surfaces the backend reply, and mutates the
stored session — its history grows to two messages and its counter
advances — while the owner fields still read tenant 1. -/
theorem C2_cross_tenant_access_succeeds :
    (let r := process_message_simple env0 stC2 10 "internal" (some 2) (some 20) (some "ak_p20")
       "alice" "alice" "m1" "hello"
     r.1.success = true ∧ r.1.error = none ∧ r.1.response = some "backend-reply"
     ∧ (lookup? r.2.sm.sessions "internal:alice").map (fun s => s.team_id) = some (some 1)
     ∧ (lookup? r.2.sm.sessions "internal:alice").map (fun s => s.history.length) = some 2
     ∧ (lookup? r.2.sm.sessions "internal:alice").map (fun s => s.message_count) = some 3
     ∧ (lookup? r.2.sm.sessions "internal:alice").map (fun s => s.last_activity) = some 10) := by
  decide

/-! ## C7 -/

/-- C7: check_rate_limit first discards the key's timestamps older than
now - 60 (every surviving entry is strictly newer), admits exactly when
the surviving count is strictly below the platform limit, records the
current timestamp only on admission; hence a call finding the window
full is denied and a call after 61 seconds of inactivity (every recorded
entry at least 61 seconds old) is admitted. -/
theorem C7_check_rate_limit_correct (env : Env) (sm : SessionManager) (now : Int)
    (platform user_id : String) :
    (let N := env.pm.get_rate_limit platform
     let key := platform ++ ":" ++ user_id
     let old := lookupD sm.rate_limits key []
     let cleaned := old.filter (fun t => decide (now - 60 < t))
     let r := SessionManager.check_rate_limit env sm now platform user_id
     ((r.1 = true) ↔ cleaned.length < N)
     ∧ lookupD r.2.rate_limits key [] = (if r.1 then cleaned ++ [now] else cleaned)
     ∧ (∀ t ∈ cleaned, now - 60 < t)
     ∧ ((∀ t ∈ old, now - 60 < t) → N ≤ old.length → r.1 = false)
     ∧ ((∀ t ∈ old, t ≤ now - 61) → 0 < N → r.1 = true)) := by
  intro N key old cleaned r
  have hsplit : r = SessionManager.check_rate_limit env sm now platform user_id := rfl
  unfold SessionManager.check_rate_limit at hsplit
  by_cases hc : N ≤ cleaned.length
  · have hr : r = (false, { sm with rate_limits := setEntry sm.rate_limits key cleaned }) := by
      rw [hsplit]; simp only [if_pos hc]
    refine ⟨?_, ?_, ?_, ?_, ?_⟩
    · rw [hr]; simp; omega
    · rw [hr]
      simp only [lookupD, lookup?_setEntry_self, Option.getD_some, Bool.false_eq_true, if_false]
    · intro t ht
      have hcl : cleaned = old.filter (fun t => decide (now - 60 < t)) := rfl
      rw [hcl] at ht
      exact of_decide_eq_true (List.mem_filter.mp ht).2
    · intro _ _; rw [hr]
    · intro hall hN
      exfalso
      have hnil : cleaned = [] := by
        refine List.filter_eq_nil_iff.mpr ?_
        intro t ht
        have h61 := hall t ht
        simp only [decide_eq_true_eq]
        omega
      rw [hnil] at hc
      simp at hc
      omega
  · have hr : r = (true, { sm with rate_limits := setEntry sm.rate_limits key (cleaned ++ [now]) }) := by
      rw [hsplit]; simp only [if_neg hc]
    refine ⟨?_, ?_, ?_, ?_, ?_⟩
    · rw [hr]; simp; omega
    · rw [hr]
      simp only [lookupD, lookup?_setEntry_self, Option.getD_some, if_true]
    · intro t ht
      have hcl : cleaned = old.filter (fun t => decide (now - 60 < t)) := rfl
      rw [hcl] at ht
      exact of_decide_eq_true (List.mem_filter.mp ht).2
    · intro hall hN
      exfalso
      have : cleaned = old := by
        refine List.filter_eq_self.mpr ?_
        intro t ht
        exact decide_eq_true (hall t ht)
      rw [this] at hc
      omega
    · intro _ _; rw [hr]

/-- C7 witness: a concrete run — two in-window timestamps, limit 60 —
evaluating every conjunct of the characterization. -/
theorem C7_witness :
    (let N := env0.pm.get_rate_limit "internal"
     let key := "internal" ++ ":" ++ "alice"
     let old := lookupD ({ sessions := [], rate_limits := [("internal:alice", [70, 1])] } : SessionManager).rate_limits key []
     let cleaned := old.filter (fun t => decide ((100 : Int) - 60 < t))
     let r := SessionManager.check_rate_limit env0 { sessions := [], rate_limits := [("internal:alice", [70, 1])] } 100 "internal" "alice"
     ((r.1 = true) ↔ cleaned.length < N)
     ∧ lookupD r.2.rate_limits key [] = (if r.1 then cleaned ++ [100] else cleaned)
     ∧ (∀ t ∈ cleaned, (100 : Int) - 60 < t)
     ∧ ((∀ t ∈ old, (100 : Int) - 60 < t) → N ≤ old.length → r.1 = false)
     ∧ ((∀ t ∈ old, t ≤ (100 : Int) - 61) → 0 < N → r.1 = true)) :=
  C7_check_rate_limit_correct env0 { sessions := [], rate_limits := [("internal:alice", [70, 1])] } 100 "internal" "alice"

/-! ## C8 -/

/-- C8: get_or_create_session is idempotent per key — a second call with
the same platform and chat id (hence the same key) returns the session
stored by the first call with only last_activity refreshed: session id,
history, current model and message count are untouched, the sessions
table changes only at that key, and the rate-limit table not at all. -/
theorem C8_get_or_create_idempotent (env : Env) (sm : SessionManager) (now1 now2 : Int)
    (platform chat_id u1 u2 : String) (t1 t2 k1 k2 : Option Int) (p1 p2 : Option String) :
    (let r1 := SessionManager.get_or_create_session env sm now1 platform u1 chat_id t1 k1 p1
     let r2 := SessionManager.get_or_create_session env r1.2 now2 platform u2 chat_id t2 k2 p2
     r2.1 = { r1.1 with last_activity := now2 }
     ∧ r2.1.session_id = r1.1.session_id
     ∧ r2.1.history = r1.1.history
     ∧ r2.1.current_model = r1.1.current_model
     ∧ r2.1.message_count = r1.1.message_count
     ∧ r2.1.team_id = r1.1.team_id
     ∧ r2.2.sessions = setEntry r1.2.sessions (get_session_key platform chat_id) r2.1
     ∧ r2.2.rate_limits = r1.2.rate_limits) := by
  intro r1 r2
  have h1 : lookup? r1.2.sessions (get_session_key platform chat_id) = some r1.1 :=
    get_or_create_lookup_self env sm now1 platform u1 chat_id t1 k1 p1
  have h2 : r2 = (r1.1.update_activity now2,
      { r1.2 with sessions := setEntry r1.2.sessions (get_session_key platform chat_id) (r1.1.update_activity now2) }) :=
    get_or_create_of_present env r1.2 now2 platform u2 chat_id t2 k2 p2 r1.1 h1
  rw [h2]
  exact ⟨rfl, rfl, rfl, rfl, rfl, rfl, rfl, rfl⟩

/-! ## C9 -/

/-- C9: when the backend call raises, _handle_chat_simple returns the
fixed static apology text and the session exactly as it was — in
particular the failed exchange is not appended to its history. -/
theorem C9_backend_failure_static_apology (env : Env) (now : Int) (session : ChatSession)
    (text : String)
    (h : env.backend session.session_id text
          (session.get_recent_history (env.pm.get_max_history session.platform))
          session.current_model = none) :
    handle_chat_simple env now session text = (ai_unavailable_text, session) := by
  unfold handle_chat_simple
  dsimp only
  rw [h]

/-- A concrete session for closed-instance witnesses. -/
def sessionW : ChatSession :=
  { session_id := "md5-internal:alice", platform := "internal",
    platform_config := internal_config0, user_id := "alice", chat_id := "alice",
    current_model := "gpt-chat", history := [⟨"user", "hi"⟩, ⟨"assistant", "hello"⟩],
    created_at := 0, last_activity := 0, message_count := 2 }

/-- C9 witness: with the backend down, the handler returns the apology
and the session with its two-message history untouched. -/
theorem C9_witness :
    handle_chat_simple env_backend_down 5 sessionW "how are you" = (ai_unavailable_text, sessionW) :=
  C9_backend_failure_static_apology env_backend_down 5 sessionW "how are you" rfl

/-! ## C3 amended -/

/-- C3 amended: process_message_simple performs no quota check at all —
its response and session effects are independent of the accumulated
usage records (two states sharing a session manager produce the same
response whatever their ledgers hold), and the ledger is only ever
appended to.  A credential at or past its effective limit is therefore
processed like any other. -/
theorem C3_no_quota_enforcement (env : Env) (st st2 : GatewayState) (now : Int)
    (platform_name : String) (team_id api_key_id : Option Int) (api_key_pfx : Option String)
    (user_id chat_id message_id text : String)
    (h : st.sm = st2.sm) :
    (process_message_simple env st now platform_name team_id api_key_id api_key_pfx user_id chat_id message_id text).1
      = (process_message_simple env st2 now platform_name team_id api_key_id api_key_pfx user_id chat_id message_id text).1
    ∧ List.IsPrefix st.ledger
        (process_message_simple env st now platform_name team_id api_key_id api_key_pfx user_id chat_id message_id text).2.ledger := by
  obtain ⟨sm, L⟩ := st
  obtain ⟨sm2, L2⟩ := st2
  simp only at h
  subst h
  constructor
  · unfold process_message_simple
    dsimp only
    split <;> rfl
  · unfold process_message_simple
    dsimp only
    split
    · dsimp only
      split
      · exact List.prefix_append L _
      · exact List.prefix_rfl
    · dsimp only
      split
      · exact List.prefix_append L _
      · exact List.prefix_rfl

/-- C3 amended witness: the same request against the one-record ledger
of the counterexample and against an empty ledger yields the same
response, and the one-record ledger is a prefix of the resulting one. -/
theorem C3_no_quota_enforcement_witness :
    (process_message_simple env0 { sm := {}, ledger := ledgerC3 } 0 "internal" (some 1) (some 10)
        (some "ak_p10") "alice" "alice" "m1" "hello").1
      = (process_message_simple env0 { sm := {}, ledger := [] } 0 "internal" (some 1) (some 10)
        (some "ak_p10") "alice" "alice" "m1" "hello").1
    ∧ List.IsPrefix ledgerC3
        (process_message_simple env0 { sm := {}, ledger := ledgerC3 } 0 "internal" (some 1) (some 10)
        (some "ak_p10") "alice" "alice" "m1" "hello").2.ledger :=
  C3_no_quota_enforcement env0 { sm := {}, ledger := ledgerC3 } { sm := {}, ledger := [] } 0
    "internal" (some 1) (some 10) (some "ak_p10") "alice" "alice" "m1" "hello" rfl

/-! ## C4 amended -/

/-- C4 amended: validate_api_key resolves the identity — the stored
credential with its owning team id, last_used_at refreshed — exactly
when the presented secret's hash matches a stored credential that is
active, unexpired, and owned by an active team; in every other case it
returns the single generic failure none (the four categories are
distinguished only in log output, not in the returned value). -/
theorem C4_validate_resolves_iff (env : Env) (db : DB) (now : Int) (s : String) (k2 : APIKey) :
    (validate_api_key env db now s).1 = some k2 ↔
      ∃ k, db.find_key_by_hash (env.sha256hex s) = some k
        ∧ k.is_active = true
        ∧ k.is_expired now = false
        ∧ (∃ t, db.find_team k.team_id = some t ∧ t.is_active = true)
        ∧ k2 = { k with last_used_at := some now } := by
  unfold validate_api_key
  dsimp only
  cases hf : db.find_key_by_hash (env.sha256hex s) with
  | none => simp [hf]
  | some k =>
    cases hact : k.is_active with
    | false => simp [hact]
    | true =>
      simp only [hact, Bool.true_eq_false, if_false]
      cases hexp : k.is_expired now with
      | true => simp [hexp]
      | false =>
        simp only [hexp, Bool.false_eq_true, if_false]
        cases hteam : db.find_team k.team_id with
        | none => simp [hteam]
        | some t =>
          cases htact : t.is_active with
          | false => simp [hteam, htact]
          | true =>
            simp only [htact, Bool.true_eq_false, if_false]
            constructor
            · intro h
              refine ⟨k, rfl, hact, hexp, ⟨t, hteam, htact⟩, ?_⟩
              refine (Option.some_injective _ h).symm.trans ?_
              rw [hact]
            · rintro ⟨k3, hk3, -, -, -, hk2⟩
              obtain rfl : k = k3 := Option.some_injective _ hk3
              rw [hk2, hact]

/-! ## C5 amended -/

/-- A successful validation implies a stored credential whose hash is
the hash of the presented secret. -/
theorem validate_some_hash_mem (env : Env) (db : DB) (now : Int) (s : String) (k2 : APIKey)
    (h : (validate_api_key env db now s).1 = some k2) :
    ∃ k ∈ db.api_keys, k.key_hash = env.sha256hex s := by
  unfold validate_api_key at h
  dsimp only at h
  cases hf : db.find_key_by_hash (env.sha256hex s) with
  | none => rw [hf] at h; simp at h
  | some k =>
    have hf2 : List.find? (fun j => decide (j.key_hash = env.sha256hex s)) db.api_keys = some k := hf
    refine ⟨k, List.mem_of_find?_eq_some hf2, ?_⟩
    have hp := List.find?_some hf2
    exact of_decide_eq_true hp

/-- A granted administrative access implies membership in the
statically configured secret set. -/
theorem admin_ok_mem (env : Env) (s x : String)
    (h : require_admin_access env (some s) = .ok x) :
    s ∈ env.super_admin_keys := by
  unfold require_admin_access at h
  dsimp only at h
  by_cases he : env.super_admin_keys = []
  · rw [if_pos he] at h; exact absurd h (by simp)
  · rw [if_neg he] at h
    by_cases hc : env.super_admin_keys.contains s = true
    · exact List.mem_of_elem_eq_true hc
    · rw [if_neg (by simpa using hc)] at h
      exact absurd h (by simp)

/-- C5 amended: the two validation paths consult disjoint stores (the
environment secret set and the credential table); whenever no
administrative secret's hash is stored as a credential hash — the
intended deployment discipline — no single secret is accepted by both
require_admin_access and validate_api_key. -/
theorem C5_admin_and_tenant_mutually_exclusive (env : Env) (db : DB) (now : Int) (s : String)
    (hdisj : ∀ a ∈ env.super_admin_keys, ∀ k ∈ db.api_keys, k.key_hash ≠ env.sha256hex a) :
    ¬((∃ x, require_admin_access env (some s) = .ok x)
      ∧ ∃ k2, (validate_api_key env db now s).1 = some k2) := by
  rintro ⟨⟨x, hok⟩, ⟨k2, hv⟩⟩
  obtain ⟨k, hkmem, hkh⟩ := validate_some_hash_mem env db now s k2 hv
  exact hdisj s (admin_ok_mem env s x hok) k hkmem hkh

/-- C5 amended witness: with env0's single administrative secret and a
store holding only cred10 (hash of a different secret), the mutual
exclusion holds at the secret admin-secret. -/
theorem C5_mutual_exclusion_witness :
    ¬((∃ x, require_admin_access env0 (some "admin-secret") = .ok x)
      ∧ ∃ k2, (validate_api_key env0 { teams := [team1], api_keys := [cred10] } 0 "admin-secret").1 = some k2) :=
  C5_admin_and_tenant_mutually_exclusive env0 { teams := [team1], api_keys := [cred10] } 0
    "admin-secret" (by decide)

/-! ## Path equations for process_message_simple -/

/-- The denied path of process_message_simple, as one equation. -/
theorem process_denied_eq (env : Env) (st : GatewayState) (now : Int)
    (platform_name : String) (team_id api_key_id : Option Int) (api_key_pfx : Option String)
    (user_id chat_id message_id text : String)
    (hd : (SessionManager.check_rate_limit env
            (SessionManager.get_or_create_session env st.sm now platform_name user_id chat_id team_id api_key_id api_key_pfx).2
            now platform_name user_id).1 = false) :
    process_message_simple env st now platform_name team_id api_key_id api_key_pfx user_id chat_id message_id text
      = ({ success := false
           error := some "rate_limit_exceeded"
           response := some (rate_limit_text (SessionManager.get_or_create_session env st.sm now platform_name user_id chat_id team_id api_key_id api_key_pfx).1.platform_config.rate_limit)
           chat_id := some chat_id },
         { sm := (SessionManager.check_rate_limit env
                   (SessionManager.get_or_create_session env st.sm now platform_name user_id chat_id team_id api_key_id api_key_pfx).2
                   now platform_name user_id).2,
           ledger :=
             if truthy team_id && truthy api_key_id then
               st.ledger ++
                 [{ api_key_id := api_key_id.getD 0, team_id := team_id.getD 0,
                    session_id := chat_id, platform := platform_name,
                    model_used := (SessionManager.get_or_create_session env st.sm now platform_name user_id chat_id team_id api_key_id api_key_pfx).1.current_model,
                    success := false, error_message := some "rate_limit_exceeded" }]
             else st.ledger }) := by
  unfold process_message_simple
  dsimp only
  rw [hd]
  simp only [reduceIte]
  rfl

/-- The admitted, non-command, backend-down path of
process_message_simple, as one equation. -/
theorem process_allowed_backend_down_eq (env : Env) (st : GatewayState) (now : Int)
    (platform_name : String) (team_id api_key_id : Option Int) (api_key_pfx : Option String)
    (user_id chat_id message_id text : String)
    (ha : (SessionManager.check_rate_limit env
            (SessionManager.get_or_create_session env st.sm now platform_name user_id chat_id team_id api_key_id api_key_pfx).2
            now platform_name user_id).1 = true)
    (hcmd : is_command text = false)
    (hb : env.backend
            (SessionManager.get_or_create_session env st.sm now platform_name user_id chat_id team_id api_key_id api_key_pfx).1.session_id
            text
            ((SessionManager.get_or_create_session env st.sm now platform_name user_id chat_id team_id api_key_id api_key_pfx).1.get_recent_history
              (env.pm.get_max_history (SessionManager.get_or_create_session env st.sm now platform_name user_id chat_id team_id api_key_id api_key_pfx).1.platform))
            (SessionManager.get_or_create_session env st.sm now platform_name user_id chat_id team_id api_key_id api_key_pfx).1.current_model
          = none) :
    process_message_simple env st now platform_name team_id api_key_id api_key_pfx user_id chat_id message_id text
      = ({ success := true
           response := some ai_unavailable_text
           chat_id := some chat_id
           model := some (SessionManager.get_or_create_session env st.sm now platform_name user_id chat_id team_id api_key_id api_key_pfx).1.current_model
           message_count := some ((SessionManager.get_or_create_session env st.sm now platform_name user_id chat_id team_id api_key_id api_key_pfx).1.message_count + 1) },
         { sm := { (SessionManager.check_rate_limit env
                     (SessionManager.get_or_create_session env st.sm now platform_name user_id chat_id team_id api_key_id api_key_pfx).2
                     now platform_name user_id).2 with
                   sessions := setEntry (SessionManager.check_rate_limit env
                       (SessionManager.get_or_create_session env st.sm now platform_name user_id chat_id team_id api_key_id api_key_pfx).2
                       now platform_name user_id).2.sessions
                     (get_session_key platform_name chat_id)
                     { (SessionManager.get_or_create_session env st.sm now platform_name user_id chat_id team_id api_key_id api_key_pfx).1 with
                       message_count := (SessionManager.get_or_create_session env st.sm now platform_name user_id chat_id team_id api_key_id api_key_pfx).1.message_count + 1
                       last_activity := now } },
           ledger :=
             if truthy team_id && truthy api_key_id then
               st.ledger ++
                 [{ api_key_id := api_key_id.getD 0, team_id := team_id.getD 0,
                    session_id := chat_id, platform := platform_name,
                    model_used := (SessionManager.get_or_create_session env st.sm now platform_name user_id chat_id team_id api_key_id api_key_pfx).1.current_model,
                    success := true, error_message := none }]
             else st.ledger }) := by
  unfold process_message_simple handle_chat_simple
  dsimp only
  rw [ha, hcmd, hb]
  rfl
/-! ## C6 amended -/

/-- The usage record process_message_simple logs for a rate-limited
authenticated request. -/
def denied_usage (team_id api_key_id : Option Int) (chat_id platform_name model : String) : UsageLog :=
  { api_key_id := api_key_id.getD 0
    team_id := team_id.getD 0
    session_id := chat_id
    platform := platform_name
    model_used := model
    success := false
    error_message := some "rate_limit_exceeded" }

/-- The usage record process_message_simple logs for a processed
message of an authenticated credential. -/
def success_usage (team_id api_key_id : Option Int) (chat_id platform_name model : String) : UsageLog :=
  { api_key_id := api_key_id.getD 0
    team_id := team_id.getD 0
    session_id := chat_id
    platform := platform_name
    model_used := model
    success := true
    error_message := none }

/-- C6 amended: a request denied by the rate limiter gets the soft
rate-limited response, appends no message to any session's history and
advances no message counter (sessions existing before the request keep
their history and counter, and a session created by the pre-check lookup
is empty); but the denial is not free of effects outside the rate
limiter: when a truthy team and credential id are known, a failed usage
record tagged rate_limit_exceeded is appended to the ledger (and nothing
is appended otherwise). -/
theorem C6_denied_request_frame (env : Env) (st : GatewayState) (now : Int)
    (platform_name : String) (team_id api_key_id : Option Int) (api_key_pfx : Option String)
    (user_id chat_id message_id text : String) (res : BotResponse) (st2 : GatewayState)
    (hd : (SessionManager.check_rate_limit env
            (SessionManager.get_or_create_session env st.sm now platform_name user_id chat_id team_id api_key_id api_key_pfx).2
            now platform_name user_id).1 = false)
    (hres : process_message_simple env st now platform_name team_id api_key_id api_key_pfx user_id chat_id message_id text = (res, st2)) :
    res.success = false
    ∧ res.error = some "rate_limit_exceeded"
    ∧ ((truthy team_id && truthy api_key_id) = true →
        st2.ledger = st.ledger ++
          [denied_usage team_id api_key_id chat_id platform_name
            (SessionManager.get_or_create_session env st.sm now platform_name user_id chat_id team_id api_key_id api_key_pfx).1.current_model])
    ∧ ((truthy team_id && truthy api_key_id) = false → st2.ledger = st.ledger)
    ∧ (∀ k s, lookup? st.sm.sessions k = some s →
        ∃ s2, lookup? st2.sm.sessions k = some s2
          ∧ s2.history = s.history ∧ s2.message_count = s.message_count)
    ∧ (∀ k s2, lookup? st2.sm.sessions k = some s2 →
        (s2.history = [] ∧ s2.message_count = 0)
        ∨ ∃ s, lookup? st.sm.sessions k = some s
            ∧ s2.history = s.history ∧ s2.message_count = s.message_count) := by
  have heq := process_denied_eq env st now platform_name team_id api_key_id api_key_pfx
    user_id chat_id message_id text hd
  rw [hres, Prod.mk.injEq] at heq
  obtain ⟨h1, h2⟩ := heq
  subst h1
  subst h2
  have hsess : (SessionManager.check_rate_limit env
        (SessionManager.get_or_create_session env st.sm now platform_name user_id chat_id team_id api_key_id api_key_pfx).2
        now platform_name user_id).2.sessions
      = setEntry st.sm.sessions (get_session_key platform_name chat_id)
          (SessionManager.get_or_create_session env st.sm now platform_name user_id chat_id team_id api_key_id api_key_pfx).1 := by
    rw [check_rate_limit_sessions]
    exact get_or_create_sessions_eq env st.sm now platform_name user_id chat_id team_id api_key_id api_key_pfx
  refine ⟨rfl, rfl, ?_, ?_, ?_, ?_⟩
  · intro hc
    dsimp only
    rw [hc]
    rfl
  · intro hc
    dsimp only
    rw [hc]
    rfl
  · intro k s hks
    dsimp only
    by_cases hk : k = get_session_key platform_name chat_id
    · subst hk
      have hpres := get_or_create_of_present env st.sm now platform_name user_id chat_id
        team_id api_key_id api_key_pfx s hks
      refine ⟨(SessionManager.get_or_create_session env st.sm now platform_name user_id chat_id team_id api_key_id api_key_pfx).1, ?_, ?_, ?_⟩
      · rw [hsess]
        exact lookup?_setEntry_self _ _ _
      · rw [hpres]
        rfl
      · rw [hpres]
        rfl
    · refine ⟨s, ?_, rfl, rfl⟩
      rw [hsess, lookup?_setEntry_ne _ _ _ _ hk]
      exact hks
  · intro k s2 hks2
    dsimp only at hks2
    by_cases hk : k = get_session_key platform_name chat_id
    · subst hk
      rw [hsess, lookup?_setEntry_self] at hks2
      obtain rfl : (SessionManager.get_or_create_session env st.sm now platform_name user_id chat_id team_id api_key_id api_key_pfx).1 = s2 :=
        Option.some_injective _ hks2
      cases hl : lookup? st.sm.sessions (get_session_key platform_name chat_id) with
      | none =>
        exact Or.inl (get_or_create_of_absent env st.sm now platform_name user_id chat_id
          team_id api_key_id api_key_pfx hl)
      | some s =>
        refine Or.inr ⟨s, rfl, ?_, ?_⟩
        · rw [get_or_create_of_present env st.sm now platform_name user_id chat_id
            team_id api_key_id api_key_pfx s hl]
          rfl
        · rw [get_or_create_of_present env st.sm now platform_name user_id chat_id
            team_id api_key_id api_key_pfx s hl]
          rfl
    · refine Or.inr ⟨s2, ?_, rfl, rfl⟩
      rw [hsess, lookup?_setEntry_ne _ _ _ _ hk] at hks2
      exact hks2

/-- The denied state of the C6 counterexample, reused by the witness. -/
def stC6 : GatewayState :=
  { sm := { sessions := [], rate_limits := [("internal:alice", [100])] }, ledger := [] }

/-- C6 amended witness: the concrete denied authenticated request of the
counterexample, every hypothesis discharged by computation. -/
theorem C6_denied_request_frame_witness :
    (process_message_simple env_rl1 stC6 110 "internal" (some 1) (some 10) (some "ak_p10")
        "alice" "alice" "m1" "hello").1.success = false
    ∧ (process_message_simple env_rl1 stC6 110 "internal" (some 1) (some 10) (some "ak_p10")
        "alice" "alice" "m1" "hello").1.error = some "rate_limit_exceeded"
    ∧ ((truthy (some 1) && truthy (some 10)) = true →
        (process_message_simple env_rl1 stC6 110 "internal" (some 1) (some 10) (some "ak_p10")
          "alice" "alice" "m1" "hello").2.ledger = stC6.ledger ++
          [denied_usage (some 1) (some 10) "alice" "internal"
            (SessionManager.get_or_create_session env_rl1 stC6.sm 110 "internal" "alice" "alice" (some 1) (some 10) (some "ak_p10")).1.current_model])
    ∧ ((truthy (some 1) && truthy (some 10)) = false →
        (process_message_simple env_rl1 stC6 110 "internal" (some 1) (some 10) (some "ak_p10")
          "alice" "alice" "m1" "hello").2.ledger = stC6.ledger)
    ∧ (∀ k s, lookup? stC6.sm.sessions k = some s →
        ∃ s2, lookup? (process_message_simple env_rl1 stC6 110 "internal" (some 1) (some 10) (some "ak_p10")
            "alice" "alice" "m1" "hello").2.sm.sessions k = some s2
          ∧ s2.history = s.history ∧ s2.message_count = s.message_count)
    ∧ (∀ k s2, lookup? (process_message_simple env_rl1 stC6 110 "internal" (some 1) (some 10) (some "ak_p10")
          "alice" "alice" "m1" "hello").2.sm.sessions k = some s2 →
        (s2.history = [] ∧ s2.message_count = 0)
        ∨ ∃ s, lookup? stC6.sm.sessions k = some s
            ∧ s2.history = s.history ∧ s2.message_count = s.message_count) :=
  C6_denied_request_frame env_rl1 stC6 110 "internal" (some 1) (some 10) (some "ak_p10")
    "alice" "alice" "m1" "hello" _ _ (by decide) rfl

/-! ## C10 -/

/-- C10: when the backend is down, the credential authenticated (truthy
team and key ids), the rate limiter admitting and the text not a
command, process_message_simple still reports success — the BotResponse
has success true and carries the apology text — the stored session has
its message counter incremented (history untouched), and a usage record
with success true is appended for the credential: at the public
interface and in the ledger a backend failure is recorded exactly like a
successful exchange. -/
theorem C10_backend_failure_counts_as_success (env : Env) (st : GatewayState) (now : Int)
    (platform_name : String) (team_id api_key_id : Option Int) (api_key_pfx : Option String)
    (user_id chat_id message_id text : String) (res : BotResponse) (st2 : GatewayState)
    (hb : ∀ sid q hist m, env.backend sid q hist m = none)
    (hcmd : is_command text = false)
    (hcred : (truthy team_id && truthy api_key_id) = true)
    (ha : (SessionManager.check_rate_limit env
            (SessionManager.get_or_create_session env st.sm now platform_name user_id chat_id team_id api_key_id api_key_pfx).2
            now platform_name user_id).1 = true)
    (hres : process_message_simple env st now platform_name team_id api_key_id api_key_pfx user_id chat_id message_id text = (res, st2)) :
    res.success = true
    ∧ res.response = some ai_unavailable_text
    ∧ res.message_count = some ((SessionManager.get_or_create_session env st.sm now platform_name user_id chat_id team_id api_key_id api_key_pfx).1.message_count + 1)
    ∧ lookup? st2.sm.sessions (get_session_key platform_name chat_id)
        = some { (SessionManager.get_or_create_session env st.sm now platform_name user_id chat_id team_id api_key_id api_key_pfx).1 with
                 message_count := (SessionManager.get_or_create_session env st.sm now platform_name user_id chat_id team_id api_key_id api_key_pfx).1.message_count + 1
                 last_activity := now }
    ∧ st2.ledger = st.ledger ++
        [success_usage team_id api_key_id chat_id platform_name
          (SessionManager.get_or_create_session env st.sm now platform_name user_id chat_id team_id api_key_id api_key_pfx).1.current_model] := by
  have heq := process_allowed_backend_down_eq env st now platform_name team_id api_key_id
    api_key_pfx user_id chat_id message_id text ha hcmd (hb _ _ _ _)
  rw [hres, Prod.mk.injEq] at heq
  obtain ⟨h1, h2⟩ := heq
  subst h1
  subst h2
  refine ⟨rfl, rfl, rfl, ?_, ?_⟩
  · dsimp only
    exact lookup?_setEntry_self _ _ _
  · dsimp only
    rw [hcred]
    rfl

/-- C10 witness: the backend-down environment, a fresh state, and the
authenticated credential of team 1 — the response succeeds with the
apology, the counter advances to 1, and a success record is logged. -/
theorem C10_backend_failure_counts_as_success_witness :
    (process_message_simple env_backend_down {} 0 "internal" (some 1) (some 10) (some "ak_p10")
        "alice" "alice" "m1" "hello").1.success = true
    ∧ (process_message_simple env_backend_down {} 0 "internal" (some 1) (some 10) (some "ak_p10")
        "alice" "alice" "m1" "hello").1.response = some ai_unavailable_text
    ∧ (process_message_simple env_backend_down {} 0 "internal" (some 1) (some 10) (some "ak_p10")
        "alice" "alice" "m1" "hello").1.message_count
        = some ((SessionManager.get_or_create_session env_backend_down ({} : GatewayState).sm 0 "internal" "alice" "alice" (some 1) (some 10) (some "ak_p10")).1.message_count + 1)
    ∧ lookup? (process_message_simple env_backend_down {} 0 "internal" (some 1) (some 10) (some "ak_p10")
          "alice" "alice" "m1" "hello").2.sm.sessions (get_session_key "internal" "alice")
        = some { (SessionManager.get_or_create_session env_backend_down ({} : GatewayState).sm 0 "internal" "alice" "alice" (some 1) (some 10) (some "ak_p10")).1 with
                 message_count := (SessionManager.get_or_create_session env_backend_down ({} : GatewayState).sm 0 "internal" "alice" "alice" (some 1) (some 10) (some "ak_p10")).1.message_count + 1
                 last_activity := 0 }
    ∧ (process_message_simple env_backend_down {} 0 "internal" (some 1) (some 10) (some "ak_p10")
        "alice" "alice" "m1" "hello").2.ledger = ({} : GatewayState).ledger ++
        [success_usage (some 1) (some 10) "alice" "internal"
          (SessionManager.get_or_create_session env_backend_down ({} : GatewayState).sm 0 "internal" "alice" "alice" (some 1) (some 10) (some "ak_p10")).1.current_model] :=
  C10_backend_failure_counts_as_success env_backend_down {} 0 "internal" (some 1) (some 10)
    (some "ak_p10") "alice" "alice" "m1" "hello" _ _ (fun _ _ _ _ => rfl) rfl (by decide)
    (by decide) rfl

end ArashBot
